import Mathlib

/-
Verification development for the exdicom workflow orchestration engine
(src/main.py and src/webhook_server.py).

The Python code is shallowly embedded as pure Lean functions.  External
collaborators (downloader, processor, sender, transfer manager) are modelled
by environment records carrying the outcomes their calls would report; the
embedded functions reproduce, branch for branch, the control flow of the
source functions over those outcomes.  Collaborator failures are modelled as
the return values the source code actually inspects (falsy ids / paths,
success flags, count dictionaries); logging is pure side effect in the source
and is reflected only where a claim needs it (error log text, warning counts,
notifier invocation counts).

The float expression (successful / total_files) * 100 >= 80 from
process_sheets_application is modelled exactly over the integers as
80 * total_files <= 100 * successful, which is equivalent for total_files > 0
(file counts are far below the range where binary64 rounding could cross the
4/5 boundary).
-/

/-- Result dictionary of sender.send_batch / upload_batch_via_api:
keys successful, total_files, failed, failed_files. -/
structure SendResult where
  successful : Nat
  total_files : Nat
  failed : Nat
  failed_files : List String
  deriving DecidableEq

/-- Break condition of the retry loop in process_sheets_application
(src/main.py lines 391-407): full success, or partial success with
successful > 0 and a success rate of at least 80 percent. -/
def sheetsSendSatisfied (r : SendResult) : Bool :=
  if r.successful == r.total_files then true
  else if 0 < r.successful then decide (80 * r.total_files ≤ 100 * r.successful)
  else false

/-- In process_sheets_application the inter-attempt delay is executed only in
the branch where successful == 0 (src/main.py lines 413-429). -/
def sheetsSleepOnFail (r : SendResult) : Bool :=
  r.successful == 0

/-- Break condition of the retry loop in process_single_workflow
(src/main.py line 256): only full success counts. -/
def localSendSatisfied (r : SendResult) : Bool :=
  r.successful == r.total_files

/-- In process_single_workflow the delay is executed on every unsatisfied
attempt (src/main.py lines 266-268). -/
def localSleepOnFail (_ : SendResult) : Bool :=
  true

/-- Observable trace of one run of the transmit retry loop: the final
send_success flag, the number of attempts performed, and the (0-indexed)
attempts after which time.sleep(retry_delay) was executed. -/
structure RetryTrace where
  sendSuccess : Bool
  attempts : Nat
  sleeps : List Nat
  deriving DecidableEq

/-- One iteration family of the Python loop
  for attempt in range(max_retries): ...
starting at index attempt with fuel remaining iterations.  sat is the break
condition, slp the guard of the sleep branch, results gives the SendResult of
each attempt.  A sleep is recorded only when the source guard
attempt < max_retries - 1 holds, written here as attempt + 1 < maxRetries. -/
def retryFrom (sat slp : SendResult → Bool) (results : Nat → SendResult)
    (maxRetries : Nat) : Nat → Nat → RetryTrace
  | attempt, 0 => ⟨false, attempt, []⟩
  | attempt, fuel + 1 =>
    let r := results attempt
    if sat r then ⟨true, attempt + 1, []⟩
    else
      let t := retryFrom sat slp results maxRetries (attempt + 1) fuel
      ⟨t.sendSuccess, t.attempts,
        if slp r && decide (attempt + 1 < maxRetries) then attempt :: t.sleeps
        else t.sleeps⟩

/-- The whole retry loop: attempts 0 .. maxRetries - 1. -/
def sendRetryLoop (sat slp : SendResult → Bool) (results : Nat → SendResult)
    (maxRetries : Nat) : RetryTrace :=
  retryFrom sat slp results maxRetries 0 maxRetries

/-- Observable outcome of one per-item orchestration: the boolean return
value, the number of transmit attempts performed, the number of
send_error_notification calls, the number of warning log lines produced by
failed acknowledge / cleanup housekeeping, and the text of the decisive
error log line, when one was emitted. -/
structure ItemOutcome where
  success : Bool
  transmitAttempts : Nat
  notifierCalls : Nat
  warnings : Nat
  errorLog : Option String
  deriving DecidableEq

/-- Collaborator outcomes consumed by process_sheets_application
(src/main.py lines 315-485).  Booleans stand for the truthiness of the
returned ids / paths / flags the source inspects; collaborator failure is
modelled through these return values (the post-send cleanup helpers in the
source either return a flag or are wrapped in try/except). -/
structure SheetsEnv where
  fileFound : Bool
  downloadOk : Bool
  processSuccess : Bool
  processErrorMessage : String
  processedFiles : List String
  sendResults : Nat → SendResult
  maxRetries : Nat
  updateTimeOk : Bool
  driveDeleteOk : Bool
  workDirCleanupOk : Bool
  processingDirCleanupOk : Bool

/-- Embedding of DicomWorkflowManager.process_sheets_application
(src/main.py lines 315-485), branch for branch.  Note that no branch calls
transfer_manager.send_error_notification, so notifierCalls is 0 throughout,
and that the acknowledge / cleanup steps after a satisfied send only add
warning log lines and never change the return value. -/
def process_sheets_application (env : SheetsEnv) : ItemOutcome :=
  if !env.fileFound then
    ⟨false, 0, 0, 0, some "File not found in Google Drive"⟩
  else if !env.downloadOk then
    ⟨false, 0, 0, 0, some "File download failed"⟩
  else if !env.processSuccess then
    ⟨false, 0, 0, 0, some ("File processing failed: " ++ env.processErrorMessage)⟩
  else if env.processedFiles.isEmpty then
    ⟨false, 0, 0, 0, some "No files available to send"⟩
  else
    let t := sendRetryLoop sheetsSendSatisfied sheetsSleepOnFail env.sendResults
      env.maxRetries
    if !t.sendSuccess then
      ⟨false, t.attempts, 0, 0, some "File send failed after all attempts"⟩
    else
      let w1 : Nat := if env.updateTimeOk then 0 else 1
      let w2 : Nat := if env.driveDeleteOk then 0 else 1
      let w3 : Nat := if env.workDirCleanupOk then 0 else 1
      let w4 : Nat := if env.processingDirCleanupOk then 0 else 1
      ⟨true, t.attempts, 0, w1 + w2 + w3 + w4, none⟩

/-- Collaborator outcomes consumed by process_single_workflow
(src/main.py lines 211-313).  The item arrives already fetched in this mode;
completeTransferOk is the boolean returned by
transfer_manager.complete_transfer_process. -/
structure LocalEnv where
  processSuccess : Bool
  processErrorMessage : String
  processedFiles : List String
  sendResults : Nat → SendResult
  maxRetries : Nat
  completeTransferOk : Bool
  deleteSourceOk : Bool
  processingDirCleanupOk : Bool

/-- Embedding of DicomWorkflowManager.process_single_workflow
(src/main.py lines 211-313), branch for branch.  send_error_notification is
called on processing failure and on exhausted send retries; a false return
of complete_transfer_process makes the whole item return False; source-file
deletion and processing-directory cleanup failures only warn. -/
def process_single_workflow (env : LocalEnv) : ItemOutcome :=
  if !env.processSuccess then
    ⟨false, 0, 1, 0, some ("File processing failed: " ++ env.processErrorMessage)⟩
  else if env.processedFiles.isEmpty then
    ⟨false, 0, 0, 0, some "No files available to send"⟩
  else
    let t := sendRetryLoop localSendSatisfied localSleepOnFail env.sendResults
      env.maxRetries
    if !t.sendSuccess then
      ⟨false, t.attempts, 1, 0, some "File send failed after all attempts"⟩
    else if env.completeTransferOk then
      let w1 : Nat := if env.deleteSourceOk then 0 else 1
      let w2 : Nat := if env.processingDirCleanupOk then 0 else 1
      ⟨true, t.attempts, 0, w1 + w2, none⟩
    else
      ⟨false, t.attempts, 0, 0, some "Transfer process completion failed"⟩

/-- Counters of one cycle, as accumulated by run_sheets_workflow and
run_local_workflow (pending_items stands for pending_applications in the
sheets cycle and for downloaded_files / total_files in the local cycle). -/
structure CycleStats where
  pending_items : Nat
  processed_files : Nat
  successful_transfers : Nat
  failed_transfers : Nat
  deriving DecidableEq

/-- Observable result of one cycle: the finalized stats (the finally block
of the source always finalizes and logs them), the number of
send_error_notification calls made at cycle level, and whether the list of
pending items was ever requested from the source collaborator. -/
structure CycleResult where
  stats : CycleStats
  systemNotifications : Nat
  pendingFetched : Bool
  deriving DecidableEq

/-- Embedding of DicomWorkflowManager.run_sheets_workflow
(src/main.py lines 487-543).  A false connectivity probe raises, the
exception is caught and only logged - this cycle driver makes no
send_error_notification call - and the finally block still emits the
zero-initialized stats. -/
def run_sheets_workflow (connectionOk : Bool) (pending : List SheetsEnv) :
    CycleResult :=
  if !connectionOk then
    ⟨⟨0, 0, 0, 0⟩, 0, false⟩
  else
    let results := pending.map (fun e => (process_sheets_application e).success)
    ⟨⟨pending.length, results.length, results.count true, results.count false⟩,
     0, true⟩

/-- Embedding of DicomWorkflowManager.run_local_workflow
(src/main.py lines 572-643).  A false connectivity probe raises; the except
branch logs and calls transfer_manager.send_error_notification once; the
finally block still emits the zero-initialized stats. -/
def run_local_workflow (connectionOk : Bool) (pending : List LocalEnv) :
    CycleResult :=
  if !connectionOk then
    ⟨⟨0, 0, 0, 0⟩, 1, false⟩
  else
    let results := pending.map (fun e => (process_single_workflow e).success)
    ⟨⟨pending.length, results.length, results.count true, results.count false⟩,
     0, true⟩

/-- The process-wide counters total_processed / total_successful /
total_failed of DicomWorkflowManager (src/main.py lines 42-44). -/
structure LifetimeStats where
  total_processed : Nat
  total_successful : Nat
  total_failed : Nat
  deriving DecidableEq

/-- How one iteration of run_continuous_mode ends: the cycle returned a
stats dictionary, or the cycle call raised an exception. -/
inductive CycleExec where
  | ok (stats : CycleStats)
  | raised
  deriving DecidableEq

/-- Embedding of the statistics update in run_continuous_mode
(src/main.py lines 763-784): on a normal cycle the three counters grow by
the cycle stats; on an exception only total_failed grows, by exactly 1. -/
def continuousStatsUpdate (s : LifetimeStats) (e : CycleExec) : LifetimeStats :=
  match e with
  | .ok c => ⟨s.total_processed + c.processed_files,
              s.total_successful + c.successful_transfers,
              s.total_failed + c.failed_transfers⟩
  | .raised => ⟨s.total_processed, s.total_successful, s.total_failed + 1⟩

/-- Embedding of process_upload_async (src/webhook_server.py lines 177-210):
it builds the application record, calls
workflow_manager.process_sheets_application, and logs the outcome.  It reads
or writes none of the lifetime counters, so the stats component of the state
is returned unchanged. -/
def process_upload_async (s : LifetimeStats) (env : SheetsEnv) :
    LifetimeStats × Bool :=
  (s, (process_sheets_application env).success)

/-- One POST to /webhook/upload, as seen by handle_upload_notification
(src/webhook_server.py lines 101-174).  authEnabled is the effective value
of app.config ENABLE_AUTH (hasattr(app, "config") is always true for a
Flask app, and the config default is True); dataKeys are the keys of the
parsed JSON body, with the empty list standing for a falsy body (no JSON or
an empty object); identifier is the value of the identifier field. -/
structure UploadRequest where
  authEnabled : Bool
  signaturePresent : Bool
  signatureValid : Bool
  dataKeys : List String
  identifier : String
  managerWired : Bool

/-- Response of handle_upload_notification: HTTP status, whether a
background processing thread was started (the only way the per-item
orchestration is reached from this endpoint), the keys of the JSON response
body, and the echoed identifier, when present. -/
structure UploadResponse where
  status : Nat
  orchestratorDispatched : Bool
  bodyKeys : List String
  identifierEcho : Option String
  deriving DecidableEq

/-- The required_fields list of handle_upload_notification. -/
def requiredFields : List String :=
  ["identifier", "filename", "row_number"]

/-- Embedding of the POST branch of handle_upload_notification
(src/webhook_server.py lines 121-174): signature check (when enabled),
empty-body check, required-field check, manager-wired check, then the 202
response with the background thread started. -/
def handle_upload_notification (r : UploadRequest) : UploadResponse :=
  if r.authEnabled && !r.signaturePresent then
    ⟨401, false, ["error"], none⟩
  else if r.authEnabled && !r.signatureValid then
    ⟨401, false, ["error"], none⟩
  else if r.dataKeys.isEmpty then
    ⟨400, false, ["error"], none⟩
  else if !(requiredFields.filter (fun f => !r.dataKeys.contains f)).isEmpty then
    ⟨400, false, ["error"], none⟩
  else if !r.managerWired then
    ⟨503, false, ["error"], none⟩
  else
    ⟨202, true, ["status", "message", "identifier", "timestamp"],
     some r.identifier⟩

/-- Embedding of the sliced inter-cycle sleep of run_continuous_mode
(src/main.py lines 802-806): before each 1-second slice the loop reads
self.running; flag i is the value of the i-th read.  The value is the
number of 1-second slices actually slept. -/
def sliceSleepFrom (flag : Nat → Bool) : Nat → Nat → Nat
  | _, 0 => 0
  | i, n + 1 => if flag i then sliceSleepFrom flag (i + 1) n + 1 else 0

/-- Embedding of the whole remainder sleep (src/main.py lines 802-810):
the sliced loop followed by the fractional sleep, which is guarded by one
more read of self.running.  Under a never-reset flag (the source only ever
assigns self.running = False) the value of that read equals flag applied to
the number of slices slept, which is how it is written here.  Returns the
slice count and whether the fractional sleep ran. -/
def sleepRemainder (flag : Nat → Bool) (slices : Nat) (hasFrac : Bool) :
    Nat × Bool :=
  let s := sliceSleepFrom flag 0 slices
  (s, hasFrac && flag s)

/-- Embedding of the while self.running loop head of run_continuous_mode
(src/main.py line 757): flag j is the value of the while-condition read
before iteration j; the value is the number of cycles started before the
first false read, bounded by fuel. -/
def cyclesStartedFrom (flag : Nat → Bool) : Nat → Nat → Nat
  | _, 0 => 0
  | j, fuel + 1 => if flag j then cyclesStartedFrom flag (j + 1) fuel + 1 else 0

/-- Transmit stub for the C2 witness: attempt 0 fails completely, every
later attempt succeeds fully. -/
def c2Results : Nat → SendResult := fun i =>
  if i == 0 then ⟨0, 2, 2, []⟩ else ⟨2, 2, 0, []⟩

/-- A sheets-path item whose every stage succeeds (send fully successful on
the first attempt). -/
def sheetsEnvSuccess : SheetsEnv :=
  ⟨true, true, true, "", ["out.dcm"], fun _ => ⟨2, 2, 0, []⟩, 1,
   true, true, true, true⟩

/-- A sheets-path item with a satisfied send whose every acknowledge and
cleanup step then fails. -/
def sheetsEnvAckFail : SheetsEnv :=
  ⟨true, true, true, "", ["out.dcm"], fun _ => ⟨2, 2, 0, []⟩, 1,
   false, false, false, false⟩

/-- A sheets-path item whose transform stage reports failure. -/
def sheetsEnvTransformFail : SheetsEnv :=
  ⟨true, true, false, "corrupt archive", [], fun _ => ⟨0, 0, 0, []⟩, 1,
   true, true, true, true⟩

/-- A sheets-path item whose transform stage reports success but produces
zero output artifacts. -/
def sheetsEnvNoFiles : SheetsEnv :=
  ⟨true, true, true, "", [], fun _ => ⟨0, 0, 0, []⟩, 1,
   true, true, true, true⟩

/-- A local-path item whose transform stage reports success but produces
zero output artifacts. -/
def localEnvNoFiles : LocalEnv :=
  ⟨true, "", [], fun _ => ⟨0, 0, 0, []⟩, 1, true, true, true⟩

/-- A local-path item with a satisfied send whose complete_transfer_process
call then reports failure. -/
def localEnvAckFail : LocalEnv :=
  ⟨true, "", ["out.dcm"], fun _ => ⟨2, 2, 0, []⟩, 1, false, true, true⟩

/-- A local-path item whose transform stage reports failure. -/
def localEnvTransformFail : LocalEnv :=
  ⟨false, "corrupt archive", [], fun _ => ⟨0, 0, 0, []⟩, 1, true, true, true⟩

/-- A local-path item whose only allowed transmit attempt sends nothing. -/
def localEnvSendFail : LocalEnv :=
  ⟨true, "", ["out.dcm"], fun _ => ⟨0, 2, 2, []⟩, 1, true, true, true⟩

/-- A POST with signed-request mode enabled, no signature header, and a
body missing the filename field. -/
def reqMissingFilename : UploadRequest :=
  ⟨true, false, false, ["identifier", "row_number"], "ID-001", true⟩

/-- A POST with signed-request mode disabled and a body missing the
filename field. -/
def reqMissingFilenameNoAuth : UploadRequest :=
  ⟨false, false, false, ["identifier", "row_number"], "ID-002", true⟩

/-- A POST with signed-request mode disabled, all required fields present,
and the workflow manager wired. -/
def reqComplete : UploadRequest :=
  ⟨false, false, false, ["identifier", "filename", "row_number"], "ID-003",
   true⟩

theorem retryFrom_step_true (sat slp : SendResult → Bool)
    (results : Nat → SendResult) (maxRetries attempt fuel : Nat)
    (hs : sat (results attempt) = true) :
    retryFrom sat slp results maxRetries attempt (fuel + 1) =
      ⟨true, attempt + 1, []⟩ := by
  simp [retryFrom, hs]

theorem retryFrom_step_false (sat slp : SendResult → Bool)
    (results : Nat → SendResult) (maxRetries attempt fuel : Nat)
    (hf : sat (results attempt) = false) :
    retryFrom sat slp results maxRetries attempt (fuel + 1) =
      ⟨(retryFrom sat slp results maxRetries (attempt + 1) fuel).sendSuccess,
       (retryFrom sat slp results maxRetries (attempt + 1) fuel).attempts,
       if slp (results attempt) && decide (attempt + 1 < maxRetries) then
         attempt :: (retryFrom sat slp results maxRetries (attempt + 1) fuel).sleeps
       else (retryFrom sat slp results maxRetries (attempt + 1) fuel).sleeps⟩ := by
  simp [retryFrom, hf]

theorem retryFrom_attempts_le (sat slp : SendResult → Bool)
    (results : Nat → SendResult) (maxRetries : Nat) :
    ∀ fuel attempt,
      (retryFrom sat slp results maxRetries attempt fuel).attempts ≤ attempt + fuel := by
  intro fuel
  induction fuel with
  | zero => intro attempt; simp [retryFrom]
  | succ n ih =>
    intro attempt
    cases hs : sat (results attempt) with
    | true =>
      rw [retryFrom_step_true sat slp results maxRetries attempt n hs]
      dsimp only
      omega
    | false =>
      rw [retryFrom_step_false sat slp results maxRetries attempt n hs]
      dsimp only
      have := ih (attempt + 1)
      omega

theorem retryFrom_attempts_ge (sat slp : SendResult → Bool)
    (results : Nat → SendResult) (maxRetries : Nat) :
    ∀ fuel attempt,
      attempt ≤ (retryFrom sat slp results maxRetries attempt fuel).attempts := by
  intro fuel
  induction fuel with
  | zero => intro attempt; simp [retryFrom]
  | succ n ih =>
    intro attempt
    cases hs : sat (results attempt) with
    | true =>
      rw [retryFrom_step_true sat slp results maxRetries attempt n hs]
      dsimp only
      omega
    | false =>
      rw [retryFrom_step_false sat slp results maxRetries attempt n hs]
      dsimp only
      have := ih (attempt + 1)
      omega

theorem retryFrom_first_sat (sat slp : SendResult → Bool)
    (results : Nat → SendResult) (maxRetries : Nat) :
    ∀ fuel attempt j, attempt ≤ j → j < attempt + fuel →
      sat (results j) = true →
      (∀ i, attempt ≤ i → i < j → sat (results i) = false) →
      (retryFrom sat slp results maxRetries attempt fuel).sendSuccess = true ∧
      (retryFrom sat slp results maxRetries attempt fuel).attempts = j + 1 := by
  intro fuel
  induction fuel with
  | zero => intro attempt j h1 h2 _ _; omega
  | succ n ih =>
    intro attempt j h1 h2 hsat hbef
    by_cases he : attempt = j
    · subst he
      rw [retryFrom_step_true sat slp results maxRetries attempt n hsat]
      exact ⟨rfl, rfl⟩
    · have hlt : attempt < j := by omega
      have hf : sat (results attempt) = false := hbef attempt (le_refl _) hlt
      rw [retryFrom_step_false sat slp results maxRetries attempt n hf]
      exact ih (attempt + 1) j (by omega) (by omega) hsat
        (fun i hi1 hi2 => hbef i (by omega) hi2)

theorem retryFrom_sleeps_spec (sat slp : SendResult → Bool)
    (results : Nat → SendResult) (maxRetries : Nat) :
    ∀ fuel attempt, maxRetries ≤ attempt + fuel →
      ∀ i ∈ (retryFrom sat slp results maxRetries attempt fuel).sleeps,
        sat (results i) = false ∧
        i + 1 < (retryFrom sat slp results maxRetries attempt fuel).attempts := by
  intro fuel
  induction fuel with
  | zero => intro attempt _ i hi; simp [retryFrom] at hi
  | succ n ih =>
    intro attempt hinv i hi
    cases hs : sat (results attempt) with
    | true =>
      rw [retryFrom_step_true sat slp results maxRetries attempt n hs] at hi
      simp at hi
    | false =>
      rw [retryFrom_step_false sat slp results maxRetries attempt n hs] at hi ⊢
      by_cases hg : (slp (results attempt) && decide (attempt + 1 < maxRetries)) = true
      · simp only [hg, if_true] at hi
        rcases List.mem_cons.mp hi with hcase | hcase
        · subst hcase
          refine ⟨hs, ?_⟩
          have hmr : i + 1 < maxRetries := by
            have hand := (Bool.and_eq_true _ _).mp hg
            exact of_decide_eq_true hand.2
          rcases Nat.exists_eq_succ_of_ne_zero (by omega : n ≠ 0) with ⟨m, hm⟩
          subst hm
          have hge2 : i + 2 ≤
              (retryFrom sat slp results maxRetries (i + 1) (m + 1)).attempts := by
            cases hs2 : sat (results (i + 1)) with
            | true =>
              rw [retryFrom_step_true sat slp results maxRetries (i + 1) m hs2]
            | false =>
              rw [retryFrom_step_false sat slp results maxRetries (i + 1) m hs2]
              dsimp only
              have := retryFrom_attempts_ge sat slp results maxRetries m (i + 1 + 1)
              omega
          have hgoal : i + 1 <
              (retryFrom sat slp results maxRetries (i + 1) (m + 1)).attempts := by
            omega
          exact hgoal
        · exact ih (attempt + 1) (by omega) i hcase
      · simp only [Bool.not_eq_true] at hg
        simp only [hg, if_false] at hi
        exact ih (attempt + 1) (by omega) i hi

theorem sliceSleepFrom_le_of_false (flag : Nat → Bool) :
    ∀ n i k, flag (i + k) = false → sliceSleepFrom flag i n ≤ k := by
  intro n
  induction n with
  | zero => intro i k _; simp [sliceSleepFrom]
  | succ m ih =>
    intro i k hk
    by_cases hi : flag i = true
    · cases k with
      | zero => rw [Nat.add_zero] at hk; rw [hk] at hi; exact absurd hi (by simp)
      | succ k' =>
        have hrec := ih (i + 1) k' (by
          have : i + 1 + k' = i + (k' + 1) := by omega
          rw [this]; exact hk)
        simp only [sliceSleepFrom, hi, if_true]
        omega
    · simp only [Bool.not_eq_true] at hi
      simp only [sliceSleepFrom, hi, Bool.false_eq_true, if_false]
      omega

theorem sliceSleepFrom_stop (flag : Nat → Bool) :
    ∀ n i, sliceSleepFrom flag i n = n ∨
      flag (i + sliceSleepFrom flag i n) = false := by
  intro n
  induction n with
  | zero => intro i; left; simp [sliceSleepFrom]
  | succ m ih =>
    intro i
    by_cases hi : flag i = true
    · rcases ih (i + 1) with h | h
      · left; simp only [sliceSleepFrom, hi, if_true, h]
      · right
        simp only [sliceSleepFrom, hi, if_true]
        have : i + (sliceSleepFrom flag (i + 1) m + 1) =
            i + 1 + sliceSleepFrom flag (i + 1) m := by omega
        rw [this]
        exact h
    · simp only [Bool.not_eq_true] at hi
      right
      simp only [sliceSleepFrom, hi, Bool.false_eq_true, if_false, Nat.add_zero]

theorem cyclesStartedFrom_le_of_false (flag : Nat → Bool) :
    ∀ fuel j k, flag (j + k) = false → cyclesStartedFrom flag j fuel ≤ k := by
  intro fuel
  induction fuel with
  | zero => intro j k _; simp [cyclesStartedFrom]
  | succ m ih =>
    intro j k hk
    by_cases hj : flag j = true
    · cases k with
      | zero => rw [Nat.add_zero] at hk; rw [hk] at hj; exact absurd hj (by simp)
      | succ k' =>
        have hrec := ih (j + 1) k' (by
          have : j + 1 + k' = j + (k' + 1) := by omega
          rw [this]; exact hk)
        simp only [cyclesStartedFrom, hj, if_true]
        omega
    · simp only [Bool.not_eq_true] at hj
      simp only [cyclesStartedFrom, hj, Bool.false_eq_true, if_false]
      omega

/-- C1 counterexample: a transmit outcome with total 5 and 4 successes has
ratio exactly 0.80 (4 * total ≤ 5 * successful with total > 0), yet the
local poll path (process_single_workflow, src/main.py line 256) does not
judge the send satisfied, contrary to the claim that the 0.80 threshold
holds on every code path that wraps transmit. -/
theorem c1_satisfied_policy_counterexample :
    0 < SendResult.total_files ⟨4, 5, 1, []⟩ ∧
    4 * SendResult.total_files ⟨4, 5, 1, []⟩ ≤
      5 * SendResult.successful ⟨4, 5, 1, []⟩ ∧
    localSendSatisfied ⟨4, 5, 1, []⟩ = false := by
  decide

/-- C1 as amended: for every transmit outcome with total > 0, the sheets /
push path judges the send satisfied iff successful equals total or the
success ratio is at least 0.80 (boundary included), while the local poll
path judges it satisfied iff successful equals total, with no
partial-success threshold. -/
theorem c1_satisfied_policy (r : SendResult) (ht : 0 < r.total_files) :
    (sheetsSendSatisfied r = true ↔
      (r.successful = r.total_files ∨ 4 * r.total_files ≤ 5 * r.successful)) ∧
    (localSendSatisfied r = true ↔ r.successful = r.total_files) := by
  refine ⟨?_, by simp [localSendSatisfied]⟩
  simp only [sheetsSendSatisfied, beq_iff_eq]
  split_ifs with h1 h2
  · simp [h1]
  · rw [decide_eq_true_eq]
    constructor
    · intro h; right; omega
    · rintro (h | h)
      · exact absurd h h1
      · omega
  · constructor
    · intro h; exact absurd h (by simp)
    · rintro (h | h)
      · exact absurd h h1
      · exfalso; omega

/-- C1 witness: the amended policy evaluated at the boundary outcome 4 of 5. -/
theorem c1_satisfied_policy_witness :
    (sheetsSendSatisfied ⟨4, 5, 1, []⟩ = true ↔
      ((4 : Nat) = 5 ∨ 4 * 5 ≤ 5 * 4)) ∧
    (localSendSatisfied ⟨4, 5, 1, []⟩ = true ↔ (4 : Nat) = 5) :=
  c1_satisfied_policy ⟨4, 5, 1, []⟩ (by decide)

/-- C2: for any break condition, sleep guard and transmit stub, with
max_retry_attempts = N ≥ 1, if the stub first satisfies the break condition
on attempt k ≤ N (attempts counted from 1) then the loop reports success
with exactly k attempts; the attempt count never exceeds N; and every
recorded retry delay follows an unsatisfied attempt that was not the final
one (so no delay after a satisfied attempt or after the last attempt).
Instantiating sat / slp with the sheets-path or local-path predicates gives
the two transmit wrappers of the source. -/
theorem c2_retry_bounds (sat slp : SendResult → Bool)
    (results : Nat → SendResult) (N k : Nat)
    (_hN : 1 ≤ N) (hk1 : 1 ≤ k) (hkN : k ≤ N)
    (hsat : sat (results (k - 1)) = true)
    (hbef : ∀ i, i < k - 1 → sat (results i) = false) :
    (sendRetryLoop sat slp results N).sendSuccess = true ∧
    (sendRetryLoop sat slp results N).attempts = k ∧
    (sendRetryLoop sat slp results N).attempts ≤ N ∧
    (∀ i ∈ (sendRetryLoop sat slp results N).sleeps,
      sat (results i) = false ∧
      i + 1 < (sendRetryLoop sat slp results N).attempts) := by
  have hfs := retryFrom_first_sat sat slp results N N 0 (k - 1) (by omega)
    (by omega) hsat (fun i _ h2 => hbef i h2)
  have hle := retryFrom_attempts_le sat slp results N N 0
  have hsl := retryFrom_sleeps_spec sat slp results N N 0 (by omega)
  unfold sendRetryLoop
  exact ⟨hfs.1, by rw [hfs.2]; omega, by omega, hsl⟩

/-- C2 witness: with the local-path predicates, three allowed attempts and
a stub first satisfied on attempt 2, the loop succeeds in exactly 2
attempts. -/
theorem c2_retry_bounds_witness :
    (sendRetryLoop localSendSatisfied localSleepOnFail c2Results 3).sendSuccess
      = true ∧
    (sendRetryLoop localSendSatisfied localSleepOnFail c2Results 3).attempts
      = 2 ∧
    (sendRetryLoop localSendSatisfied localSleepOnFail c2Results 3).attempts
      ≤ 3 ∧
    (∀ i ∈ (sendRetryLoop localSendSatisfied localSleepOnFail c2Results 3).sleeps,
      localSendSatisfied (c2Results i) = false ∧
      i + 1 <
        (sendRetryLoop localSendSatisfied localSleepOnFail c2Results 3).attempts) :=
  c2_retry_bounds localSendSatisfied localSleepOnFail c2Results 3 2
    (by decide) (by decide) (by decide) (by decide) (by decide)

/-- C3 counterexample: a successful push-dispatched item leaves the
lifetime counters untouched (here at 0, 0, 0), while the scheduler path
processing the same single item advances them to 1, 1, 0 - so the push
path does not update LifetimeStats as the scheduler path does. -/
theorem c3_push_stats_counterexample :
    (process_upload_async ⟨0, 0, 0⟩ sheetsEnvSuccess).2 = true ∧
    (process_upload_async ⟨0, 0, 0⟩ sheetsEnvSuccess).1 = ⟨0, 0, 0⟩ ∧
    continuousStatsUpdate ⟨0, 0, 0⟩
      (CycleExec.ok (run_sheets_workflow true [sheetsEnvSuccess]).stats) =
      ⟨1, 1, 0⟩ := by
  decide

/-- C3 as amended: the push path performs no LifetimeStats update at all -
process_upload_async returns the counters unchanged for every item and
every outcome; the counters change only when the polling scheduler adds a
finished cycle. -/
theorem c3_push_no_stats_update (s : LifetimeStats) (env : SheetsEnv) :
    (process_upload_async s env).1 = s :=
  rfl

/-- C3 witness: the push path leaves concrete counters 5, 3, 2 unchanged. -/
theorem c3_push_no_stats_update_witness :
    (process_upload_async ⟨5, 3, 2⟩ sheetsEnvSuccess).1 = ⟨5, 3, 2⟩ :=
  c3_push_no_stats_update ⟨5, 3, 2⟩ sheetsEnvSuccess

/-- C4 counterexample: a local-path item whose transmit loop is satisfied
but whose complete_transfer_process (the verify / acknowledge / cleanup
step of that path) reports failure is returned as Failure, contrary to the
claim that post-send failures never flip Success on every code path. -/
theorem c4_post_send_counterexample :
    (sendRetryLoop localSendSatisfied localSleepOnFail localEnvAckFail.sendResults
      localEnvAckFail.maxRetries).sendSuccess = true ∧
    (process_single_workflow localEnvAckFail).success = false := by
  decide

/-- C4 as amended: on the sheets / push path a satisfied send always yields
Success, whatever the acknowledge (transmission-time update) and cleanup
outcomes are; on the local poll path, after a satisfied send, the item
outcome equals the boolean returned by complete_transfer_process - so a
failure of that verify / cleanup step does flip the item to Failure, while
source-file deletion and processing-directory cleanup failures never do. -/
theorem c4_post_send (senv : SheetsEnv) (lenv : LocalEnv)
    (h1 : senv.fileFound = true) (h2 : senv.downloadOk = true)
    (h3 : senv.processSuccess = true)
    (h4 : senv.processedFiles.isEmpty = false)
    (h5 : (sendRetryLoop sheetsSendSatisfied sheetsSleepOnFail senv.sendResults
      senv.maxRetries).sendSuccess = true)
    (h6 : lenv.processSuccess = true)
    (h7 : lenv.processedFiles.isEmpty = false)
    (h8 : (sendRetryLoop localSendSatisfied localSleepOnFail lenv.sendResults
      lenv.maxRetries).sendSuccess = true) :
    (process_sheets_application senv).success = true ∧
    (process_single_workflow lenv).success = lenv.completeTransferOk := by
  constructor
  · simp [process_sheets_application, h1, h2, h3, h4, h5]
  · cases hct : lenv.completeTransferOk with
    | true => simp [process_single_workflow, h6, h7, h8, hct]
    | false => simp [process_single_workflow, h6, h7, h8, hct]

/-- C4 witness: the amended statement at a sheets item whose housekeeping
all fails (still Success) and a local item whose complete_transfer_process
fails (Failure). -/
theorem c4_post_send_witness :
    (process_sheets_application sheetsEnvAckFail).success = true ∧
    (process_single_workflow localEnvAckFail).success =
      localEnvAckFail.completeTransferOk :=
  c4_post_send sheetsEnvAckFail localEnvAckFail rfl rfl rfl (by decide)
    (by decide) rfl (by decide) (by decide)

/-- C5 counterexample: a sheets-path item failing at the transform stage
returns Failure without any send_error_notification call, contrary to the
claim that the Notifier is invoked on transform failure on every per-item
code path. -/
theorem c5_notifier_policy_counterexample :
    (process_sheets_application sheetsEnvTransformFail).success = false ∧
    (process_sheets_application sheetsEnvTransformFail).errorLog =
      some "File processing failed: corrupt archive" ∧
    (process_sheets_application sheetsEnvTransformFail).notifierCalls = 0 := by
  decide

/-- C5 as amended: the local poll path invokes the Notifier exactly once on
transform failure and exactly once after exhausting all transmit retries,
and never after a satisfied send (in particular not for acknowledge or
cleanup failures); the sheets / push path never invokes the Notifier for
any per-item failure. -/
theorem c5_notifier_policy :
    (∀ env : SheetsEnv, (process_sheets_application env).notifierCalls = 0) ∧
    (∀ env : LocalEnv, env.processSuccess = false →
      (process_single_workflow env).notifierCalls = 1) ∧
    (∀ env : LocalEnv, env.processSuccess = true →
      env.processedFiles.isEmpty = false →
      (sendRetryLoop localSendSatisfied localSleepOnFail env.sendResults
        env.maxRetries).sendSuccess = false →
      (process_single_workflow env).notifierCalls = 1) ∧
    (∀ env : LocalEnv, env.processSuccess = true →
      env.processedFiles.isEmpty = false →
      (sendRetryLoop localSendSatisfied localSleepOnFail env.sendResults
        env.maxRetries).sendSuccess = true →
      (process_single_workflow env).notifierCalls = 0) := by
  refine ⟨?_, ?_, ?_, ?_⟩
  · intro env
    simp only [process_sheets_application]
    split_ifs <;> rfl
  · intro env h
    simp [process_single_workflow, h]
  · intro env h1 h2 h3
    simp [process_single_workflow, h1, h2, h3]
  · intro env h1 h2 h3
    cases hct : env.completeTransferOk with
    | true => simp [process_single_workflow, h1, h2, h3, hct]
    | false => simp [process_single_workflow, h1, h2, h3, hct]

/-- C5 witness: the amended policy at concrete items - sheets transform
failure (0 calls), local transform failure (1 call), local exhausted
retries (1 call), local acknowledge failure after a satisfied send
(0 calls). -/
theorem c5_notifier_policy_witness :
    (process_sheets_application sheetsEnvTransformFail).notifierCalls = 0 ∧
    (process_single_workflow localEnvTransformFail).notifierCalls = 1 ∧
    (process_single_workflow localEnvSendFail).notifierCalls = 1 ∧
    (process_single_workflow localEnvAckFail).notifierCalls = 0 :=
  ⟨c5_notifier_policy.1 sheetsEnvTransformFail,
   c5_notifier_policy.2.1 localEnvTransformFail rfl,
   c5_notifier_policy.2.2.1 localEnvSendFail rfl (by decide) (by decide),
   c5_notifier_policy.2.2.2 localEnvAckFail rfl (by decide) (by decide)⟩

/-- C6 counterexample: a sheets cycle whose connectivity probe fails emits
zero-processed stats but issues no system-level error notification (the
except branch of run_sheets_workflow only logs), contrary to the claim
that every unreachable-destination cycle issues one. -/
theorem c6_connectivity_counterexample :
    (run_sheets_workflow false []).stats.processed_files = 0 ∧
    (run_sheets_workflow false []).systemNotifications = 0 := by
  decide

/-- C6 as amended: when the connectivity probe fails, both cycle drivers
abort before requesting the pending list, still finalize and emit stats
with zero processed, and return normally (the exception is caught, so the
process survives to the next cycle); the local cycle issues exactly one
system-level error notification, the sheets cycle issues none. -/
theorem c6_connectivity_failure :
    (∀ pending : List SheetsEnv,
      (run_sheets_workflow false pending).pendingFetched = false ∧
      (run_sheets_workflow false pending).stats = ⟨0, 0, 0, 0⟩ ∧
      (run_sheets_workflow false pending).systemNotifications = 0) ∧
    (∀ pending : List LocalEnv,
      (run_local_workflow false pending).pendingFetched = false ∧
      (run_local_workflow false pending).stats = ⟨0, 0, 0, 0⟩ ∧
      (run_local_workflow false pending).systemNotifications = 1) :=
  ⟨fun _ => ⟨rfl, rfl, rfl⟩, fun _ => ⟨rfl, rfl, rfl⟩⟩

/-- C6 witness: the amended statement at empty pending lists. -/
theorem c6_connectivity_failure_witness :
    (run_sheets_workflow false []).pendingFetched = false ∧
    (run_sheets_workflow false []).stats = ⟨0, 0, 0, 0⟩ ∧
    (run_sheets_workflow false []).systemNotifications = 0 ∧
    (run_local_workflow false []).pendingFetched = false ∧
    (run_local_workflow false []).stats = ⟨0, 0, 0, 0⟩ ∧
    (run_local_workflow false []).systemNotifications = 1 :=
  ⟨(c6_connectivity_failure.1 []).1, (c6_connectivity_failure.1 []).2.1,
   (c6_connectivity_failure.1 []).2.2, (c6_connectivity_failure.2 []).1,
   (c6_connectivity_failure.2 []).2.1, (c6_connectivity_failure.2 []).2.2⟩

/-- C7 counterexample: a sheets-path item whose transform reports success
with zero artifacts returns Failure with no transmit attempt, but the
Notifier is invoked zero times, not exactly once as claimed. -/
theorem c7_zero_artifacts_counterexample :
    (process_sheets_application sheetsEnvNoFiles).success = false ∧
    (process_sheets_application sheetsEnvNoFiles).transmitAttempts = 0 ∧
    (process_sheets_application sheetsEnvNoFiles).notifierCalls = 0 := by
  decide

/-- C7 as amended: on both per-item paths, when the earlier stages succeed
and the transform stage produces zero artifacts, the orchestrator returns
Failure, logs the reason "No files available to send", performs no transmit
attempt, and does not invoke the Notifier at all. -/
theorem c7_zero_artifacts (senv : SheetsEnv) (lenv : LocalEnv)
    (h1 : senv.fileFound = true) (h2 : senv.downloadOk = true)
    (h3 : senv.processSuccess = true) (h4 : senv.processedFiles = [])
    (h5 : lenv.processSuccess = true) (h6 : lenv.processedFiles = []) :
    process_sheets_application senv =
      ⟨false, 0, 0, 0, some "No files available to send"⟩ ∧
    process_single_workflow lenv =
      ⟨false, 0, 0, 0, some "No files available to send"⟩ := by
  constructor
  · simp [process_sheets_application, h1, h2, h3, h4]
  · simp [process_single_workflow, h5, h6]

/-- C7 witness: the amended statement at concrete zero-artifact items. -/
theorem c7_zero_artifacts_witness :
    process_sheets_application sheetsEnvNoFiles =
      ⟨false, 0, 0, 0, some "No files available to send"⟩ ∧
    process_single_workflow localEnvNoFiles =
      ⟨false, 0, 0, 0, some "No files available to send"⟩ :=
  c7_zero_artifacts sheetsEnvNoFiles localEnvNoFiles rfl rfl rfl rfl rfl rfl

/-- C8 counterexample: with signed-request mode enabled and the signature
header absent, a POST missing the filename field is answered 401, not 400
- the signature check precedes field validation, so the claim does not
hold for every POST. -/
theorem c8_upload_endpoint_counterexample :
    (handle_upload_notification reqMissingFilename).status = 401 ∧
    (handle_upload_notification reqMissingFilename).orchestratorDispatched
      = false := by
  decide

/-- C8 as amended: for every POST that passes the optional signature check
(signed-request mode disabled, or a valid signature supplied): a body with
any required field absent is answered 400 and no processing is dispatched;
a body with all required fields present is answered 503 when the manager is
not wired, and otherwise 202 with the identifier echoed and status,
identifier and timestamp keys in the body, with the item dispatched to a
background processing thread so the response does not wait for it. -/
theorem c8_upload_endpoint (r : UploadRequest)
    (hauth : r.authEnabled = false ∨
      (r.signaturePresent = true ∧ r.signatureValid = true)) :
    ((∃ f ∈ requiredFields, r.dataKeys.contains f = false) →
      (handle_upload_notification r).status = 400 ∧
      (handle_upload_notification r).orchestratorDispatched = false) ∧
    ((∀ f ∈ requiredFields, r.dataKeys.contains f = true) →
      (r.managerWired = false →
        (handle_upload_notification r).status = 503 ∧
        (handle_upload_notification r).orchestratorDispatched = false) ∧
      (r.managerWired = true →
        (handle_upload_notification r).status = 202 ∧
        (handle_upload_notification r).orchestratorDispatched = true ∧
        (handle_upload_notification r).identifierEcho = some r.identifier ∧
        "status" ∈ (handle_upload_notification r).bodyKeys ∧
        "identifier" ∈ (handle_upload_notification r).bodyKeys ∧
        "timestamp" ∈ (handle_upload_notification r).bodyKeys)) := by
  have ha1 : (r.authEnabled && !r.signaturePresent) = false := by
    rcases hauth with h | ⟨h1, h2⟩
    · simp [h]
    · simp [h1]
  have ha2 : (r.authEnabled && !r.signatureValid) = false := by
    rcases hauth with h | ⟨h1, h2⟩
    · simp [h]
    · simp [h2]
  constructor
  · rintro ⟨f, hf, hfc⟩
    have hnotmem : f ∉ r.dataKeys := by simpa using hfc
    have hex : ∃ x ∈ requiredFields, x ∉ r.dataKeys := ⟨f, hf, hnotmem⟩
    cases hemp : r.dataKeys.isEmpty with
    | true =>
      constructor <;>
        simp [handle_upload_notification, ha1, ha2, hemp]
    | false =>
      constructor <;>
        simp [handle_upload_notification, ha1, ha2, hemp, hex]
  · intro hall
    have hid : r.dataKeys.contains "identifier" = true :=
      hall "identifier" (by simp [requiredFields])
    have hemp : r.dataKeys.isEmpty = false := by
      cases hcase : r.dataKeys.isEmpty with
      | true =>
        rw [List.isEmpty_iff] at hcase
        rw [hcase] at hid
        simp at hid
      | false => rfl
    have hnex : ¬ ∃ x ∈ requiredFields, x ∉ r.dataKeys := by
      rintro ⟨x, hx, hnx⟩
      exact hnx (by simpa using hall x hx)
    constructor
    · intro hw
      constructor <;>
        simp [handle_upload_notification, ha1, ha2, hemp, hnex, hw]
    · intro hw
      refine ⟨?_, ?_, ?_, ?_, ?_, ?_⟩ <;>
        simp [handle_upload_notification, ha1, ha2, hemp, hnex, hw]

/-- C8 witness: the amended statement at a concrete unsigned POST missing
filename (400) and a concrete complete POST (202 with echoed identifier). -/
theorem c8_upload_endpoint_witness :
    ((handle_upload_notification reqMissingFilenameNoAuth).status = 400 ∧
     (handle_upload_notification reqMissingFilenameNoAuth).orchestratorDispatched
       = false) ∧
    ((handle_upload_notification reqComplete).status = 202 ∧
     (handle_upload_notification reqComplete).orchestratorDispatched = true ∧
     (handle_upload_notification reqComplete).identifierEcho =
       some reqComplete.identifier ∧
     "status" ∈ (handle_upload_notification reqComplete).bodyKeys ∧
     "identifier" ∈ (handle_upload_notification reqComplete).bodyKeys ∧
     "timestamp" ∈ (handle_upload_notification reqComplete).bodyKeys) :=
  ⟨(c8_upload_endpoint reqMissingFilenameNoAuth (Or.inl rfl)).1 (by decide),
   ((c8_upload_endpoint reqComplete (Or.inl rfl)).2 (by decide)).2 rfl⟩

/-- C9: for a running flag that is never reset to true, if the flag reads
false by read index k then the while-loop head starts at most k cycles
(none after the clearing read), the sliced inter-cycle sleep performs at
most k one-second slices instead of the full remaining interval, and if
the flag cleared strictly before the slice budget was exhausted the
trailing fractional sleep is skipped as well. -/
theorem c9_cancellation (flag : Nat → Bool)
    (_stable : ∀ i, flag i = false → flag (i + 1) = false)
    (k : Nat) (hk : flag k = false) (fuel slices : Nat) (hasFrac : Bool) :
    cyclesStartedFrom flag 0 fuel ≤ k ∧
    (sleepRemainder flag slices hasFrac).1 ≤ k ∧
    (k < slices → (sleepRemainder flag slices hasFrac).2 = false) := by
  have h1 := cyclesStartedFrom_le_of_false flag fuel 0 k (by simpa using hk)
  have h2 := sliceSleepFrom_le_of_false flag slices 0 k (by simpa using hk)
  refine ⟨h1, h2, ?_⟩
  intro hks
  rcases sliceSleepFrom_stop flag slices 0 with h | h
  · omega
  · rw [Nat.zero_add] at h
    simp only [sleepRemainder]
    simp [h]

/-- C9 witness: a flag cleared at read 2 yields at most 2 cycle starts out
of a 10-iteration budget, at most 2 slept slices out of 5, and no
fractional sleep. -/
theorem c9_cancellation_witness :
    cyclesStartedFrom (fun i => decide (i < 2)) 0 10 ≤ 2 ∧
    (sleepRemainder (fun i => decide (i < 2)) 5 true).1 ≤ 2 ∧
    (2 < 5 → (sleepRemainder (fun i => decide (i < 2)) 5 true).2 = false) :=
  c9_cancellation (fun i => decide (i < 2))
    (fun i h => by
      simp only [decide_eq_false_iff_not] at h ⊢
      omega)
    2 (by decide) 10 5 true

/-- C10: when a cycle of run_continuous_mode raises, the update increments
total_failed by exactly 1 and leaves total_processed and total_successful
unchanged; hence if the invariant processed = successful + failed held
before such a cycle it no longer holds after it. -/
theorem c10_cycle_exception_stats (s : LifetimeStats) :
    (continuousStatsUpdate s CycleExec.raised).total_processed =
      s.total_processed ∧
    (continuousStatsUpdate s CycleExec.raised).total_successful =
      s.total_successful ∧
    (continuousStatsUpdate s CycleExec.raised).total_failed =
      s.total_failed + 1 ∧
    (s.total_processed = s.total_successful + s.total_failed →
      (continuousStatsUpdate s CycleExec.raised).total_processed ≠
        (continuousStatsUpdate s CycleExec.raised).total_successful +
          (continuousStatsUpdate s CycleExec.raised).total_failed) := by
  refine ⟨rfl, rfl, rfl, ?_⟩
  intro h
  simp only [continuousStatsUpdate]
  omega

/-- C10 witness: the statement at counters 3, 2, 1, which satisfy the
invariant before the raising cycle. -/
theorem c10_cycle_exception_stats_witness :
    (continuousStatsUpdate ⟨3, 2, 1⟩ CycleExec.raised).total_processed = 3 ∧
    (continuousStatsUpdate ⟨3, 2, 1⟩ CycleExec.raised).total_successful = 2 ∧
    (continuousStatsUpdate ⟨3, 2, 1⟩ CycleExec.raised).total_failed = 1 + 1 ∧
    ((3 : Nat) = 2 + 1 →
      (continuousStatsUpdate ⟨3, 2, 1⟩ CycleExec.raised).total_processed ≠
        (continuousStatsUpdate ⟨3, 2, 1⟩ CycleExec.raised).total_successful +
          (continuousStatsUpdate ⟨3, 2, 1⟩ CycleExec.raised).total_failed) :=
  c10_cycle_exception_stats ⟨3, 2, 1⟩
